import Mathlib

/-!
Verification development for the ADO (Azure DevOps) webhook
verification-and-dispatch engine in `src/hooks/ado.rs`.

The Rust data model (serde-derived `Notification`, `NotificationDetails`,
`Event`, `Message`, `Container`, `Link`, `Build`, `BuildComplete`), the
verifier `verify`, the entry point `build` and the handler `build_complete`
are shallowly embedded below.  Wire JSON is modelled by an inductive `Json`
value type (numbers restricted to integers, which is all this API uses;
object keys are taken as they appear, first occurrence wins on lookup, which
matches serde_json behaviour on the duplicate-free documents exchanged here).

Library leaf codecs are embedded as executable validators over strings:
- `parseUuid` models `uuid::Uuid` deserialization for the canonical
  hyphenated 8-4-4-4-12 form (case-insensitive hex, normalised to lowercase
  exactly as the uuid crate normalises to its 128-bit value);
- `parseDateTime` models `chrono::DateTime<Utc>` RFC 3339 deserialization
  (date, time, optional 1-9 digit fraction, `Z` or numeric offset); the
  value keeps the textual form it was parsed from, which is sufficient
  because no property proved here compares datetimes across spellings;
- `parseUrl` models `url::Url` acceptance of the absolute
  `scheme://nonempty` URLs exchanged by this API, keeping the raw text.
-/

namespace AdoHooks

/-- JSON values as exchanged on the wire (models `serde_json::Value`;
numbers are restricted to integers, the only numbers this API uses). -/
inductive Json where
  | null
  | bool (b : Bool)
  | num (n : Int)
  | str (s : String)
  | arr (elems : List Json)
  | obj (fields : List (String × Json))

/-- Field list of a JSON object. -/
abbrev JObj := List (String × Json)

/-- First-match field lookup in a JSON object, as serde sees fields. -/
def getField : JObj → String → Option Json
  | [], _ => none
  | (k, v) :: rest, name => if k = name then some v else getField rest name

/-! ## UUID codec (models `uuid::Uuid` with serde) -/

/-- A character counts as a hexadecimal digit. -/
def isHexDigit (c : Char) : Bool :=
  ('0' ≤ c && c ≤ '9') || ('a' ≤ c && c ≤ 'f') || ('A' ≤ c && c ≤ 'F')

/-- Lowercase the uppercase hex digits, leaving every other character
unchanged (the normalisation the uuid crate applies to hex digits). -/
def lowerHexChar (c : Char) : Char :=
  match c with
  | 'A' => 'a'
  | 'B' => 'b'
  | 'C' => 'c'
  | 'D' => 'd'
  | 'E' => 'e'
  | 'F' => 'f'
  | c => c

/-- Consume one expected character. -/
def expects (c : Char) : List Char → Option (List Char)
  | [] => none
  | c' :: cs => if c' = c then some cs else none

/-- Consume exactly `n` hex digits from the front of a character list. -/
def takeSeg : Nat → List Char → Option (List Char)
  | 0, cs => some cs
  | _ + 1, [] => none
  | n + 1, c :: cs => if isHexDigit c then takeSeg n cs else none

/-- Check a list of hyphen-separated hex segments with the given lengths. -/
def checkSegs : List Nat → List Char → Bool
  | [], cs => cs.isEmpty
  | n :: rest, cs =>
    match takeSeg n cs with
    | none => false
    | some cs' =>
      match rest with
      | [] => cs'.isEmpty
      | _ :: _ =>
        match expects '-' cs' with
        | some cs'' => checkSegs rest cs''
        | none => false

/-- A UUID value, kept in the canonical lowercase hyphenated form the
uuid crate normalises to. -/
structure Uuid where
  repr : String
deriving DecidableEq

/-- The hyphenated 8-4-4-4-12 shape check. -/
def uuidCheck (s : String) : Bool := checkSegs [8, 4, 4, 4, 12] s.data

/-- Hex-digit lowercasing of a whole string. -/
def lowerUuid (s : String) : String := ⟨s.data.map lowerHexChar⟩

/-- Parse the canonical hyphenated 8-4-4-4-12 UUID form, accepting
either case of hex digit and normalising to lowercase. -/
def parseUuid (s : String) : Option Uuid :=
  if uuidCheck s then some ⟨lowerUuid s⟩ else none

/-- Serialize a UUID (already canonical lowercase hyphenated). -/
def printUuid (u : Uuid) : String := u.repr

/-! ## RFC 3339 datetime codec (models `chrono::DateTime<Utc>` with serde) -/

/-- Decimal digit value of a character, if it is a digit. -/
def digitVal (c : Char) : Option Nat :=
  if '0' ≤ c && c ≤ '9' then some (c.toNat - 48) else none

/-- Read exactly `k` decimal digits, accumulating their value. -/
def readDigits : Nat → Nat → List Char → Option (Nat × List Char)
  | 0, acc, cs => some (acc, cs)
  | _ + 1, _, [] => none
  | k + 1, acc, c :: cs =>
    match digitVal c with
    | some d => readDigits k (acc * 10 + d) cs
    | none => none

/-- Read exactly `k` digits and require the value to lie in `[lo, hi]`. -/
def reqNum (k lo hi : Nat) (cs : List Char) : Option (List Char) :=
  match readDigits k 0 cs with
  | some (v, r) => if lo ≤ v && v ≤ hi then some r else none
  | none => none

/-- Count the leading decimal digits of a character list. -/
def countDigits : List Char → Nat × List Char
  | [] => (0, [])
  | c :: cs =>
    if (digitVal c).isSome then
      let (n, r) := countDigits cs
      (n + 1, r)
    else (0, c :: cs)

/-- Check an RFC 3339 offset: `Z` or `±HH:MM`. -/
def dtOffset : List Char → Bool
  | ['Z'] => true
  | c :: cs =>
    (c = '+' || c = '-') &&
      (match reqNum 2 0 23 cs with
       | some cs' =>
         match expects ':' cs' with
         | some cs'' =>
           match reqNum 2 0 59 cs'' with
           | some rest => rest.isEmpty
           | none => false
         | none => false
       | none => false)
  | [] => false

/-- Check an optional fractional-seconds part followed by the offset. -/
def dtFrac (cs : List Char) : Bool :=
  match cs with
  | '.' :: rest =>
    let (n, r) := countDigits rest
    1 ≤ n && n ≤ 9 && dtOffset r
  | _ => dtOffset cs

/-- Check the full RFC 3339 datetime shape chrono accepts here. -/
def dtCheck (cs : List Char) : Bool :=
  (do
    let cs ← reqNum 4 0 9999 cs
    let cs ← expects '-' cs
    let cs ← reqNum 2 1 12 cs
    let cs ← expects '-' cs
    let cs ← reqNum 2 1 31 cs
    let cs ← expects 'T' cs
    let cs ← reqNum 2 0 23 cs
    let cs ← expects ':' cs
    let cs ← reqNum 2 0 59 cs
    let cs ← expects ':' cs
    let cs ← reqNum 2 0 60 cs
    if dtFrac cs then some () else none).isSome

/-- A UTC datetime, kept in the RFC 3339 textual form it was parsed from. -/
structure DateTimeUtc where
  repr : String
deriving DecidableEq

/-- Parse an RFC 3339 datetime. -/
def parseDateTime (s : String) : Option DateTimeUtc :=
  if dtCheck s.data then some ⟨s⟩ else none

/-- Serialize a datetime. -/
def printDateTime (t : DateTimeUtc) : String := t.repr

/-! ## URL codec (models `url::Url` acceptance for this API's URLs) -/

/-- An absolute URL, kept as raw text. -/
structure UrlModel where
  repr : String
deriving DecidableEq

/-- Accept `scheme://rest` with a nonempty alphabetic scheme and nonempty
remainder, the shape of every URL this API exchanges. -/
def parseUrl (s : String) : Option UrlModel :=
  match s.data.span (fun c => c.isAlpha) with
  | (scheme, ':' :: '/' :: '/' :: rest) =>
    if scheme.isEmpty || rest.isEmpty then none else some ⟨s⟩
  | _ => none

/-! ## Data model (the serde structures of `src/hooks/ado.rs`) -/

/-- Human-readable message triple (Rust `Message`). -/
structure Message where
  text : String
  html : String
  markdown : String

/-- Resource-container reference (Rust `Container`). -/
structure Container where
  id : Uuid
  baseUrl : Option String

/-- Navigational link (Rust `Link`). -/
structure Link where
  href : UrlModel

/-- The inbound webhook event (Rust `Event`).  `resource` is an untyped
JSON payload; `resourceContainers` models the `HashMap<String, Container>`
as the association list in wire order. -/
structure Event where
  id : Uuid
  subscriptionId : Option Uuid
  notificationId : Option Nat
  eventType : String
  publisherId : String
  message : Option Message
  detailedMessage : Option Message
  resource : Option Json
  resourceVersion : Option String
  resourceContainers : List (String × Container)
  createdDate : DateTimeUtc

/-- Event-type tag plus optional nested event (Rust `NotificationDetails`). -/
structure NotificationDetails where
  eventType : String
  event : Option Event

/-- The notification record ADO stores for a delivery (Rust `Notification`). -/
structure Notification where
  id : Nat
  subscriptionId : Uuid
  subscriberId : Uuid
  eventId : Uuid
  status : String
  result : String
  createdDate : DateTimeUtc
  modifiedDate : DateTimeUtc
  details : NotificationDetails

/-- Build run description (Rust `Build`; `tags` and `templateParameters`
carry `#[serde(default)]`). -/
structure Build where
  tags : List String
  templateParameters : List (String × Json)
  id : Nat
  url : UrlModel
  buildNumber : String
  status : String
  result : String
  queueTime : DateTimeUtc
  startTime : DateTimeUtc
  finishTime : DateTimeUtc
  reason : String

/-- Typed `build.complete` resource payload (Rust `BuildComplete`;
`links` is renamed `_links` on the wire and `info` is flattened). -/
structure BuildComplete where
  links : List (String × Link)
  info : Build

/-! ## Decoders (serde `Deserialize` semantics) -/

/-- Decode a JSON string. -/
def decodeString : Json → Option String
  | .str s => some s
  | _ => none

/-- Decode a `u64`: an integer in `[0, 2^64)`. -/
def decodeU64 : Json → Option Nat
  | .num n => if 0 ≤ n ∧ n < 2 ^ 64 then some n.toNat else none
  | _ => none

/-- Decode a UUID from a JSON string. -/
def decodeUuid : Json → Option Uuid
  | .str s => parseUuid s
  | _ => none

/-- Decode a datetime from a JSON string. -/
def decodeDateTime : Json → Option DateTimeUtc
  | .str s => parseDateTime s
  | _ => none

/-- Decode a URL from a JSON string. -/
def decodeUrl : Json → Option UrlModel
  | .str s => parseUrl s
  | _ => none

/-- Decode every element of a list, failing if any element fails. -/
def mapOpt (f : α → Option β) : List α → Option (List β)
  | [] => some []
  | a :: as => do
    let b ← f a
    let bs ← mapOpt f as
    pure (b :: bs)

/-- Decode a JSON array elementwise. -/
def decodeList (d : Json → Option α) : Json → Option (List α)
  | .arr xs => mapOpt d xs
  | _ => none

/-- Decode a JSON object into a string-keyed association list (models
serde's map deserialization for `HashMap<String, _>`). -/
def decodeStrMap (d : Json → Option α) : Json → Option (List (String × α))
  | .obj fields => mapOpt (fun p => (d p.2).map fun a => (p.1, a)) fields
  | _ => none

/-- Decode an `Option<T>` value: `null` is `None`, anything else must
decode as `T` (serde's `Option` semantics). -/
def optDecode (d : Json → Option α) : Json → Option (Option α)
  | .null => some none
  | j => (d j).map some

/-- A required struct field: must be present and decode. -/
def reqField (o : JObj) (name : String) (d : Json → Option α) : Option α :=
  match getField o name with
  | some j => d j
  | none => none

/-- An `Option` struct field: absent means `None`. -/
def optField (o : JObj) (name : String) (d : Json → Option α) : Option (Option α) :=
  match getField o name with
  | some j => optDecode d j
  | none => some none

/-- A `#[serde(default)]` struct field: absent means the default. -/
def defField (o : JObj) (name : String) (d : Json → Option α) (dflt : α) : Option α :=
  match getField o name with
  | some j => d j
  | none => some dflt

/-- Decode a `Message`. -/
def decodeMessage : Json → Option Message
  | .obj o => do
    let text ← reqField o "text" decodeString
    let html ← reqField o "html" decodeString
    let markdown ← reqField o "markdown" decodeString
    pure { text, html, markdown }
  | _ => none

/-- Decode a `Container`. -/
def decodeContainer : Json → Option Container
  | .obj o => do
    let id ← reqField o "id" decodeUuid
    let baseUrl ← optField o "baseUrl" decodeString
    pure { id, baseUrl }
  | _ => none

/-- Decode an `Event` (camelCase field names; unknown fields ignored). -/
def decodeEvent : Json → Option Event
  | .obj o => do
    let id ← reqField o "id" decodeUuid
    let subscriptionId ← optField o "subscriptionId" decodeUuid
    let notificationId ← optField o "notificationId" decodeU64
    let eventType ← reqField o "eventType" decodeString
    let publisherId ← reqField o "publisherId" decodeString
    let message ← optField o "message" decodeMessage
    let detailedMessage ← optField o "detailedMessage" decodeMessage
    let resource ← optField o "resource" some
    let resourceVersion ← optField o "resourceVersion" decodeString
    let resourceContainers ← reqField o "resourceContainers" (decodeStrMap decodeContainer)
    let createdDate ← reqField o "createdDate" decodeDateTime
    pure { id, subscriptionId, notificationId, eventType, publisherId, message,
           detailedMessage, resource, resourceVersion, resourceContainers, createdDate }
  | _ => none

/-- Decode a `NotificationDetails`. -/
def decodeNotificationDetails : Json → Option NotificationDetails
  | .obj o => do
    let eventType ← reqField o "eventType" decodeString
    let event ← optField o "event" decodeEvent
    pure { eventType, event }
  | _ => none

/-- Decode a `Notification`. -/
def decodeNotification : Json → Option Notification
  | .obj o => do
    let id ← reqField o "id" decodeU64
    let subscriptionId ← reqField o "subscriptionId" decodeUuid
    let subscriberId ← reqField o "subscriberId" decodeUuid
    let eventId ← reqField o "eventId" decodeUuid
    let status ← reqField o "status" decodeString
    let result ← reqField o "result" decodeString
    let createdDate ← reqField o "createdDate" decodeDateTime
    let modifiedDate ← reqField o "modifiedDate" decodeDateTime
    let details ← reqField o "details" decodeNotificationDetails
    pure { id, subscriptionId, subscriberId, eventId, status, result,
           createdDate, modifiedDate, details }
  | _ => none

/-- Decode a `Link`. -/
def decodeLink : Json → Option Link
  | .obj o => do
    let href ← reqField o "href" decodeUrl
    pure { href }
  | _ => none

/-- Decode the flattened `Build` part of a `BuildComplete` from the
fields of the enclosing object. -/
def decodeBuild (o : JObj) : Option Build := do
  let tags ← defField o "tags" (decodeList decodeString) []
  let templateParameters ← defField o "templateParameters" (decodeStrMap some) []
  let id ← reqField o "id" decodeU64
  let url ← reqField o "url" decodeUrl
  let buildNumber ← reqField o "buildNumber" decodeString
  let status ← reqField o "status" decodeString
  let result ← reqField o "result" decodeString
  let queueTime ← reqField o "queueTime" decodeDateTime
  let startTime ← reqField o "startTime" decodeDateTime
  let finishTime ← reqField o "finishTime" decodeDateTime
  let reason ← reqField o "reason" decodeString
  pure { tags, templateParameters, id, url, buildNumber, status, result,
         queueTime, startTime, finishTime, reason }

/-- Decode a `BuildComplete`: `_links` plus the flattened `Build`. -/
def decodeBuildComplete : Json → Option BuildComplete
  | .obj o => do
    let links ← reqField o "_links" (decodeStrMap decodeLink)
    let info ← decodeBuild o
    pure { links, info }
  | _ => none

/-! ## Encoder for `Event` (serde `Serialize` semantics: every field is
emitted in declaration order, `None` as `null`, camelCase names) -/

/-- Encode an optional value, `None` as `null`. -/
def encodeOpt (f : α → Json) : Option α → Json
  | none => .null
  | some a => f a

/-- Encode a `Message`. -/
def encodeMessage (m : Message) : Json :=
  .obj [("text", .str m.text), ("html", .str m.html), ("markdown", .str m.markdown)]

/-- Encode a `Container`. -/
def encodeContainer (c : Container) : Json :=
  .obj [("id", .str (printUuid c.id)), ("baseUrl", encodeOpt .str c.baseUrl)]

/-- The field list `Event` serializes to. -/
def encodeEventFields (e : Event) : JObj :=
  [("id", .str (printUuid e.id)),
   ("subscriptionId", encodeOpt (fun u => .str (printUuid u)) e.subscriptionId),
   ("notificationId", encodeOpt (fun n : Nat => .num (n : Int)) e.notificationId),
   ("eventType", .str e.eventType),
   ("publisherId", .str e.publisherId),
   ("message", encodeOpt encodeMessage e.message),
   ("detailedMessage", encodeOpt encodeMessage e.detailedMessage),
   ("resource", encodeOpt (fun j => j) e.resource),
   ("resourceVersion", encodeOpt .str e.resourceVersion),
   ("resourceContainers", .obj (e.resourceContainers.map fun p => (p.1, encodeContainer p.2))),
   ("createdDate", .str (printDateTime e.createdDate))]

/-- Encode an `Event`. -/
def encodeEvent (e : Event) : Json := .obj (encodeEventFields e)

/-! ## Verifier and entry point -/

/-- Whether to fetch the event from the ADO API to verify it
(the `SECURE_FETCH` constant, `true` in the source). -/
def SECURE_FETCH : Bool := true

/-- The organization base URL (`ADO_ORGANIZATION`). -/
def ADO_ORGANIZATION : String := "https://dev.azure.com/jusmoore"

/-- The AAD resource audience for Azure DevOps (`ADO_RESOURCE`). -/
def ADO_RESOURCE : String := "499b84ac-1321-427f-aa17-267ca6975798"

/-- The request-terminal error taxonomy of the hook (constructors carry
the `anyhow` context the source attaches). -/
inductive AdoError where
  | missingIdentifiers (msg : String)
  | transport (url : String) (status : Nat)
  | decodeFailed (body : Json)
  | verificationFailed
  | authError (msg : String)
  | missingResource
  | resourcePayloadMismatch

/-- The outcome of the single outbound notification-lookup GET, the only
I/O `verify` performs: an HTTP status and a response body (already split
into JSON; a body that is not valid JSON is represented by any body that
fails `decodeNotification`). -/
structure HttpResponse where
  status : Nat
  body : Json

/-- The notification-lookup URL `verify` constructs. -/
def lookupUrl (sid : Uuid) (nid : Nat) : String :=
  ADO_ORGANIZATION ++ "/_apis/hooks/subscriptions/" ++ printUuid sid ++
    "/notifications/" ++ toString nid ++ "?api-version=7.1-preview.1"

/-- The verifier (`verify` in the source): check the identifiers are
present, issue the lookup (its outcome is the `resp` parameter), require
status 200, decode the body as a `Notification`, and cross-check
`eventId`, `id` and `status`; on success return the original inbound
event unchanged. -/
def verify (event : Event) (resp : HttpResponse) : Except AdoError Event :=
  match event.notificationId with
  | none => .error (.missingIdentifiers "event had no notification id")
  | some nid =>
    match event.subscriptionId with
    | none => .error (.missingIdentifiers "event had no subscription id")
    | some sid =>
      if resp.status ≠ 200 then .error (.transport (lookupUrl sid nid) resp.status)
      else
        match decodeNotification resp.body with
        | none => .error (.decodeFailed resp.body)
        | some notif =>
          if notif.eventId ≠ event.id ∨ notif.id ≠ nid ∨ notif.status ≠ "processing" then
            .error .verificationFailed
          else .ok event

/-- The `build.complete` handler (`build_complete` in the source; its
unused token parameter is omitted): require a `resource` payload and
decode it into `BuildComplete`. -/
def build_complete (event : Event) : Except AdoError Unit :=
  match event.resource with
  | none => .error .missingResource
  | some r =>
    match decodeBuildComplete r with
    | none => .error .resourcePayloadMismatch
    | some _b => .ok ()

/-- Dispatch on the event-type tag (the `match event.event_type.as_str()`
at the end of `build`): exact match against `"build.complete"`, anything
else is a successful no-op. -/
def dispatch (event : Event) : Except AdoError Unit :=
  match event.eventType with
  | "build.complete" => build_complete event
  | _ => .ok ()

/-- The entry point (`build` in the source) with the secure-fetch policy
flag as a parameter: acquire a token (its outcome is the `token`
parameter), verify when the event has no `resource` payload or the flag
is set, then dispatch. -/
def buildWith (secureFetch : Bool) (token : Option String) (resp : HttpResponse)
    (event : Event) : Except AdoError Unit :=
  match token with
  | none => .error (.authError "failed to query identity")
  | some _tok =>
    match (if event.resource.isNone || secureFetch then verify event resp else .ok event) with
    | .error e => .error e
    | .ok ev => dispatch ev

/-- The entry point as compiled: the policy flag is `SECURE_FETCH`. -/
def build : Option String → HttpResponse → Event → Except AdoError Unit :=
  buildWith SECURE_FETCH

/-! ## Concrete sample values used by witnesses -/

/-- Sample event UUID. -/
def uuidE : Uuid := ⟨"d6ac459c-18b3-44ff-95b5-b5f03db672ea"⟩

/-- Sample subscription UUID. -/
def uuidS : Uuid := ⟨"213e4167-f493-4941-9b4c-bbb092d0b159"⟩

/-- Sample datetime. -/
def dt0 : DateTimeUtc := ⟨"2023-06-30T15:24:41.38Z"⟩

/-- A sample inbound event with both identifiers present and no resource. -/
def sampleEvent : Event :=
  { id := uuidE
    subscriptionId := some uuidS
    notificationId := some 41
    eventType := "build.complete"
    publisherId := "tfs"
    message := none
    detailedMessage := none
    resource := none
    resourceVersion := none
    resourceContainers := []
    createdDate := dt0 }

/-- A sample inbound event missing both identifiers. -/
def sampleEventNoIds : Event :=
  { sampleEvent with subscriptionId := none, notificationId := none }

/-- The wire form of the notification record matching `sampleEvent`. -/
def sampleNotifJson : Json :=
  .obj [("id", .num 41),
        ("subscriptionId", .str "213e4167-f493-4941-9b4c-bbb092d0b159"),
        ("subscriberId", .str "00000000-0000-0000-0000-000000000000"),
        ("eventId", .str "d6ac459c-18b3-44ff-95b5-b5f03db672ea"),
        ("status", .str "processing"),
        ("result", .str "pending"),
        ("createdDate", .str "2023-06-30T15:24:41.38Z"),
        ("modifiedDate", .str "2023-06-30T15:24:41.39Z"),
        ("details", .obj [("eventType", .str "build.complete")])]

/-- The decoded form of `sampleNotifJson`. -/
def sampleNotif : Notification :=
  { id := 41
    subscriptionId := uuidS
    subscriberId := ⟨"00000000-0000-0000-0000-000000000000"⟩
    eventId := uuidE
    status := "processing"
    result := "pending"
    createdDate := dt0
    modifiedDate := ⟨"2023-06-30T15:24:41.39Z"⟩
    details := { eventType := "build.complete", event := none } }

/-- A 200 lookup response whose body is `sampleNotifJson`. -/
def sampleResp : HttpResponse := { status := 200, body := sampleNotifJson }

/-- A second 200 response agreeing with `sampleNotifJson` on `eventId`,
`id` and `status` but differing elsewhere (`result`, dates, details). -/
def sampleRespVariant : HttpResponse :=
  { status := 200
    body := .obj [("id", .num 41),
                  ("subscriptionId", .str "00000000-0000-0000-0000-000000000000"),
                  ("subscriberId", .str "00000000-0000-0000-0000-000000000000"),
                  ("eventId", .str "d6ac459c-18b3-44ff-95b5-b5f03db672ea"),
                  ("status", .str "processing"),
                  ("result", .str "succeeded"),
                  ("createdDate", .str "2024-01-01T00:00:00Z"),
                  ("modifiedDate", .str "2024-01-01T00:00:01Z"),
                  ("details", .obj [("eventType", .str "git.push")])]}

/-- Recognizer for the missing-identifiers error outcome. -/
def isMissingIdentifiers : Except AdoError Event → Bool
  | .error (.missingIdentifiers _) => true
  | _ => false

/-- Decoded form of `sampleRespVariant`'s body. -/
def sampleNotifVariant : Notification :=
  { id := 41
    subscriptionId := ⟨"00000000-0000-0000-0000-000000000000"⟩
    subscriberId := ⟨"00000000-0000-0000-0000-000000000000"⟩
    eventId := uuidE
    status := "processing"
    result := "succeeded"
    createdDate := ⟨"2024-01-01T00:00:00Z"⟩
    modifiedDate := ⟨"2024-01-01T00:00:01Z"⟩
    details := { eventType := "git.push", event := none } }

/-- A well-shaped `build.complete` resource payload. -/
def goodBuildResource : Json :=
  .obj [("_links", .obj [("web", .obj [("href", .str "https://example.com/build/1")])]),
        ("id", .num 1),
        ("url", .str "https://example.com/apis/build/Builds/1"),
        ("buildNumber", .str "20221202.1"),
        ("status", .str "completed"),
        ("result", .str "succeeded"),
        ("queueTime", .str "2023-06-30T15:24:41.38Z"),
        ("startTime", .str "2023-06-30T15:24:42.38Z"),
        ("finishTime", .str "2023-06-30T15:24:43.38Z"),
        ("reason", .str "manual")]

/-- The same payload with the required `id` field removed. -/
def badBuildResource : Json :=
  .obj [("_links", .obj [("web", .obj [("href", .str "https://example.com/build/1")])]),
        ("url", .str "https://example.com/apis/build/Builds/1"),
        ("buildNumber", .str "20221202.1"),
        ("status", .str "completed"),
        ("result", .str "succeeded"),
        ("queueTime", .str "2023-06-30T15:24:41.38Z"),
        ("startTime", .str "2023-06-30T15:24:42.38Z"),
        ("finishTime", .str "2023-06-30T15:24:43.38Z"),
        ("reason", .str "manual")]

/-- The sample event carrying the well-shaped resource. -/
def sampleEventGoodRes : Event := { sampleEvent with resource := some goodBuildResource }

/-- The sample event carrying the id-less resource. -/
def sampleEventBadRes : Event := { sampleEvent with resource := some badBuildResource }

/-- The sample event with an unrecognized event type. -/
def sampleEventOther : Event := { sampleEvent with eventType := "workitem.updated" }

/-- The field names `Event` deserialization recognizes. -/
def eventFieldNames : List String :=
  ["id", "subscriptionId", "notificationId", "eventType", "publisherId", "message",
   "detailedMessage", "resource", "resourceVersion", "resourceContainers", "createdDate"]

/-- The fields of a minimal decodable `Event` document. -/
def eventMinimalFields : JObj :=
  [("id", .str "d6ac459c-18b3-44ff-95b5-b5f03db672ea"),
   ("eventType", .str "build.complete"),
   ("publisherId", .str "tfs"),
   ("resourceContainers", .obj []),
   ("createdDate", .str "2023-06-30T15:24:41.38Z")]

/-- A minimal decodable `Event` document. -/
def eventMinimalJson : Json := .obj eventMinimalFields

/-- The decoded form of `eventMinimalJson`. -/
def eventMinimal : Event :=
  { id := uuidE
    subscriptionId := none
    notificationId := none
    eventType := "build.complete"
    publisherId := "tfs"
    message := none
    detailedMessage := none
    resource := none
    resourceVersion := none
    resourceContainers := []
    createdDate := dt0 }

/-- A nested event whose id differs from the enclosing notification's
`eventId`. -/
def nestedEventJsonOther : Json :=
  .obj [("id", .str "00000000-0000-0000-0000-00000000beef"),
        ("eventType", .str "build.complete"),
        ("publisherId", .str "tfs"),
        ("resourceContainers", .obj []),
        ("createdDate", .str "2023-06-30T15:24:41.38Z")]

/-- A notification document whose `eventId` disagrees with the id of the
nested event in `details`. -/
def notifMismatchJson : Json :=
  .obj [("id", .num 41),
        ("subscriptionId", .str "213e4167-f493-4941-9b4c-bbb092d0b159"),
        ("subscriberId", .str "00000000-0000-0000-0000-000000000000"),
        ("eventId", .str "d6ac459c-18b3-44ff-95b5-b5f03db672ea"),
        ("status", .str "processing"),
        ("result", .str "pending"),
        ("createdDate", .str "2023-06-30T15:24:41.38Z"),
        ("modifiedDate", .str "2023-06-30T15:24:41.39Z"),
        ("details", .obj [("eventType", .str "build.complete"),
                          ("event", nestedEventJsonOther)])]

/-- The first sample Notification payload from the ADO webhook test
(`notification_test` in the source), transcribed field for field. -/
def adoFixture1 : Json :=
  .obj [("id", .num 41),
    ("subscriptionId", .str "00000000-0000-0000-0000-000000000000"),
    ("subscriberId", .str "00000000-0000-0000-0000-000000000000"),
    ("eventId", .str "d6ac459c-18b3-44ff-95b5-b5f03db672ea"),
    ("status", .str "processing"),
    ("result", .str "pending"),
    ("createdDate", .str "2023-06-30T15:24:41.38Z"),
    ("modifiedDate", .str "2023-06-30T15:24:41.39Z"),
    ("details", .obj [("eventType", .str "build.complete"),
      ("event", .obj [("id", .str "d6ac459c-18b3-44ff-95b5-b5f03db672ea"),
        ("eventType", .str "build.complete"),
        ("publisherId", .str "tfs"),
        ("message", .obj [("text", .str "Build 20150407.2 succeeded"),
          ("html", .str "Build <a href=\"https://fabrikam-fiber-inc.visualstudio.com/web/build.aspx?pcguid=5023c10b-bef3-41c3-bf53-686c4e34ee9e&amp;builduri=vstfs%3a%2f%2f%2fBuild%2fBuild%2f4\">20150407.2</a> succeeded"),
          ("markdown", .str "Build [20150407.2](https://fabrikam-fiber-inc.visualstudio.com/web/build.aspx?pcguid=5023c10b-bef3-41c3-bf53-686c4e34ee9e&builduri=vstfs%3a%2f%2f%2fBuild%2fBuild%2f4) succeeded")]),
        ("detailedMessage", .obj [("text", .str "Build 20150407.2 succeeded"),
          ("html", .str "Build <a href=\"https://fabrikam-fiber-inc.visualstudio.com/web/build.aspx?pcguid=5023c10b-bef3-41c3-bf53-686c4e34ee9e&amp;builduri=vstfs%3a%2f%2f%2fBuild%2fBuild%2f4\">20150407.2</a> succeeded"),
          ("markdown", .str "Build [20150407.2](https://fabrikam-fiber-inc.visualstudio.com/web/build.aspx?pcguid=5023c10b-bef3-41c3-bf53-686c4e34ee9e&builduri=vstfs%3a%2f%2f%2fBuild%2fBuild%2f4) succeeded")]),
        ("resource", .obj [("_links", .obj [("web", .obj [("href", .str "https://fabrikam-fiber-inc.visualstudio.com/DefaultCollection/71777fbc-1cf2-4bd1-9540-128c1c71f766/_apis/build/Builds/1")])]),
          ("id", .num 1),
          ("buildNumber", .str "20150407.2"),
          ("status", .str "completed"),
          ("result", .str "succeeded"),
          ("queueTime", .str "2015-04-07T17:22:56.22Z"),
          ("startTime", .str "2015-04-07T17:23:02.4977418Z"),
          ("finishTime", .str "2015-04-07T17:24:20.763574Z"),
          ("url", .str "https://fabrikam-fiber-inc.visualstudio.com/DefaultCollection/71777fbc-1cf2-4bd1-9540-128c1c71f766/_apis/build/Builds/1"),
          ("definition", .obj [("id", .num 1),
            ("name", .str "CustomerAddressModule"),
            ("url", .str "https://fabrikam-fiber-inc.visualstudio.com/DefaultCollection/71777fbc-1cf2-4bd1-9540-128c1c71f766/_apis/build/Definitions/1"),
            ("type", .str "build"),
            ("queueStatus", .str "enabled"),
            ("revision", .num 2),
            ("project", .obj [("id", .str "71777fbc-1cf2-4bd1-9540-128c1c71f766"),
              ("name", .str "Git"),
              ("url", .str "https://fabrikam-fiber-inc.visualstudio.com/DefaultCollection/_apis/projects/71777fbc-1cf2-4bd1-9540-128c1c71f766"),
              ("state", .str "wellFormed"),
              ("visibility", .str "unchanged"),
              ("lastUpdateTime", .str "0001-01-01T00:00:00")])]),
          ("uri", .str "vstfs:///Build/Build/1"),
          ("sourceBranch", .str "refs/heads/master"),
          ("sourceVersion", .str "600C52D2D5B655CAA111ABFD863E5A9BD304BB0E"),
          ("queue", .obj [("id", .num 1),
            ("name", .str "default"),
            ("pool", .null)]),
          ("priority", .str "normal"),
          ("reason", .str "batchedCI"),
          ("requestedFor", .obj [("displayName", .str "Normal Paulk"),
            ("url", .str "https://fabrikam-fiber-inc.visualstudio.com/_apis/Identities/d6245f20-2af8-44f4-9451-8107cb2767db"),
            ("id", .str "d6245f20-2af8-44f4-9451-8107cb2767db"),
            ("uniqueName", .str "fabrikamfiber16@hotmail.com"),
            ("imageUrl", .str "https://fabrikam-fiber-inc.visualstudio.com/DefaultCollection/_api/_common/identityImage?id=d6245f20-2af8-44f4-9451-8107cb2767db")]),
          ("requestedBy", .obj [("displayName", .str "Jamal Hartnett"),
            ("url", .str "https://fabrikam-fiber-inc.visualstudio.com/_apis/Identities/b873e41d-7ebf-4e56-a3ce-ec582975baf6"),
            ("id", .str "b873e41d-7ebf-4e56-a3ce-ec582975baf6"),
            ("uniqueName", .str "Jamal.Hartnett@Fabrikamcloud.com"),
            ("imageUrl", .str "https://fabrikam-fiber-inc.visualstudio.com/DefaultCollection/_api/_common/identityImage?id=b873e41d-7ebf-4e56-a3ce-ec582975baf6"),
            ("isContainer", .bool true)]),
          ("lastChangedDate", .str "2015-04-07T17:24:20.883Z"),
          ("lastChangedBy", .obj [("displayName", .str "[DefaultCollection]\\Project Collection Service Accounts"),
            ("url", .str "https://fabrikam-fiber-inc.visualstudio.com/_apis/Identities/b873e41d-7ebf-4e56-a3ce-ec582975baf6"),
            ("id", .str "b873e41d-7ebf-4e56-a3ce-ec582975baf6"),
            ("uniqueName", .str "vstfs:///Framework/Generic/5023c10b-bef3-41c3-bf53-686c4e34ee9e\\Project Collection Service Accounts"),
            ("imageUrl", .str "https://fabrikam-fiber-inc.visualstudio.com/DefaultCollection/_api/_common/identityImage?id=b873e41d-7ebf-4e56-a3ce-ec582975baf6"),
            ("isContainer", .bool true)]),
          ("orchestrationPlan", .obj [("planId", .str "b67fddb8-8036-47cf-a472-61aa7d9b53e8")]),
          ("logs", .obj [("id", .num 0),
            ("type", .str "Container"),
            ("url", .str "https://fabrikam-fiber-inc.visualstudio.com/DefaultCollection/71777fbc-1cf2-4bd1-9540-128c1c71f766/_apis/build/builds/1/logs")]),
          ("repository", .obj [("id", .str "47de4095-dda2-4d32-a8df-9812ae598179"),
            ("type", .str "TfsGit"),
            ("name", .str "JamalHartnettUserBranch"),
            ("url", .str "https://fabrikam-fiber-inc.visualstudio.com/DefaultCollection/_apis/_git/71777fbc-1cf2-4bd1-9540-128c1c71f766"),
            ("clean", .null),
            ("checkoutSubmodules", .bool false)]),
          ("triggeredByBuild", .null),
          ("appendCommitMessageToRunName", .bool true)]),
        ("resourceVersion", .str "2.0"),
        ("resourceContainers", .obj [("collection", .obj [("id", .str "c12d0eb8-e382-443b-9f9c-c52cba5014c2")]),
          ("account", .obj [("id", .str "f844ec47-a9db-4511-8281-8b63f4eaf94e")]),
          ("project", .obj [("id", .str "be9b3917-87e6-42a4-a549-2bc06a7a878f")])]),
        ("createdDate", .str "2023-06-30T15:24:41.3517333Z")]),
      ("publisherId", .str "tfs"),
      ("consumerId", .str "webHooks"),
      ("consumerActionId", .str "httpRequest"),
      ("consumerInputs", .obj [("url", .str "https://backend.azurewebsites.net/hooks/ado/build"),
        ("resourceDetailsToSend", .str "none"),
        ("messagesToSend", .str "none"),
        ("detailedMessagesToSend", .str "none")]),
      ("publisherInputs", .obj [("definitionName", .str ""),
        ("buildStatus", .str ""),
        ("projectId", .str "b1e35496-5821-4030-8a8c-1f79ca026f02")]),
      ("request", .str "Method: POST\nURI: https://backend.azurewebsites.net/hooks/ado/build\nHTTP Version: 1.1\nHeaders:\n\x7b\n  Content-Type: application/json; charset=utf-8\n\x7d\nContent:\n\x7b\n  \"subscriptionId\": \"00000000-0000-0000-0000-000000000000\",\n  \"notificationId\": 41,\n  \"id\": \"d6ac459c-18b3-44ff-95b5-b5f03db672ea\",\n  \"eventType\": \"build.complete\",\n  \"publisherId\": \"tfs\",\n  \"message\": null,\n  \"detailedMessage\": null,\n  \"resource\": null,\n  \"resourceVersion\": null,\n  \"resourceContainers\": \x7b\n    \"collection\": \x7b\n      \"id\": \"c12d0eb8-e382-443b-9f9c-c52cba5014c2\"\n    \x7d,\n    \"account\": \x7b\n      \"id\": \"f844ec47-a9db-4511-8281-8b63f4eaf94e\"\n    \x7d,\n    \"project\": \x7b\n      \"id\": \"be9b3917-87e6-42a4-a549-2bc06a7a878f\"\n    \x7d\n  \x7d,\n  \"createdDate\": \"2023-06-30T15:24:41.3517333Z\"\n\x7d\n"),
      ("queuedDate", .str "2023-06-30T15:24:41.367Z"),
      ("requestAttempts", .num 1)])]

/-- The second sample Notification payload from the ADO webhook test:
no nested event inside `details`. -/
def adoFixture2 : Json :=
  .obj [("id", .num 2),
    ("subscriptionId", .str "213e4167-f493-4941-9b4c-bbb092d0b159"),
    ("subscriberId", .str "00000000-0000-0000-0000-000000000000"),
    ("eventId", .str "d6ac459c-18b3-44ff-95b5-b5f03db672ea"),
    ("status", .str "processing"),
    ("result", .str "pending"),
    ("createdDate", .str "2023-06-30T16:19:52.033Z"),
    ("modifiedDate", .str "2023-06-30T16:19:52.043Z"),
    ("details", .obj [("eventType", .str "build.complete"),
      ("publisherId", .str "tfs"),
      ("consumerId", .str "webHooks"),
      ("consumerActionId", .str "httpRequest"),
      ("consumerInputs", .obj [("url", .str "https://backend.azurewebsites.net/hooks/ado/build"),
        ("resourceDetailsToSend", .str "none"),
        ("messagesToSend", .str "none"),
        ("detailedMessagesToSend", .str "none")]),
      ("publisherInputs", .obj [("definitionName", .str ""),
        ("buildStatus", .str ""),
        ("projectId", .str "b1e35496-5821-4030-8a8c-1f79ca026f02"),
        ("tfsSubscriptionId", .str "a54b1fe3-e57b-4743-b651-df508e0d53d3")]),
      ("queuedDate", .str "2023-06-30T16:19:52.033Z"),
      ("requestAttempts", .num 1)])]

/-- Well-formedness of a `Uuid` value: it reparses to itself.  Every
value `parseUuid` produces satisfies this. -/
def WfUuid (u : Uuid) : Prop := parseUuid (printUuid u) = some u

/-- Well-formedness of a `DateTimeUtc` value: it reparses to itself. -/
def WfDT (t : DateTimeUtc) : Prop := parseDateTime (printDateTime t) = some t

/-- Pointwise well-formedness of an optional value. -/
def OptWf (P : α → Prop) : Option α → Prop
  | none => True
  | some a => P a

/-- Well-formedness of a decoded `Event`: every component that carries a
validity constraint reparses to itself, and no explicit JSON null hides
inside `resource`. -/
def WfEvent (e : Event) : Prop :=
  WfUuid e.id ∧ OptWf WfUuid e.subscriptionId ∧
    OptWf (fun n => n < 2 ^ 64) e.notificationId ∧
    e.resource ≠ some Json.null ∧
    (∀ p ∈ e.resourceContainers, WfUuid p.2.id) ∧ WfDT e.createdDate

/-- A rich wire `Event` document: optional fields populated, an
uppercase UUID spelling, and an unrecognized trailing field. -/
def sampleEventFullJson : Json :=
  .obj [("id", .str "D6AC459C-18B3-44FF-95B5-B5F03DB672EA"),
        ("subscriptionId", .str "213e4167-f493-4941-9b4c-bbb092d0b159"),
        ("notificationId", .num 41),
        ("eventType", .str "build.complete"),
        ("publisherId", .str "tfs"),
        ("message", .obj [("text", .str "Build 20221202.1 succeeded"),
                          ("html", .str "Build <b>20221202.1</b> succeeded"),
                          ("markdown", .str "Build *20221202.1* succeeded")]),
        ("detailedMessage", .null),
        ("resource", goodBuildResource),
        ("resourceVersion", .str "2.0"),
        ("resourceContainers",
          .obj [("collection", .obj [("id", .str "213e4167-f493-4941-9b4c-bbb092d0b159")]),
                ("project", .obj [("id", .str "d6ac459c-18b3-44ff-95b5-b5f03db672ea"),
                                  ("baseUrl", .str "https://example.com/")])]),
        ("createdDate", .str "2023-06-30T15:24:41.38Z"),
        ("extraField", .bool true)]

/-- The decoded form of `sampleEventFullJson` (UUIDs normalised to
lowercase, unknown field dropped). -/
def sampleEventFull : Event :=
  { id := uuidE
    subscriptionId := some uuidS
    notificationId := some 41
    eventType := "build.complete"
    publisherId := "tfs"
    message := some { text := "Build 20221202.1 succeeded"
                      html := "Build <b>20221202.1</b> succeeded"
                      markdown := "Build *20221202.1* succeeded" }
    detailedMessage := none
    resource := some goodBuildResource
    resourceVersion := some "2.0"
    resourceContainers :=
      [("collection", { id := uuidS, baseUrl := none }),
       ("project", { id := uuidE, baseUrl := some "https://example.com/" })]
    createdDate := dt0 }

/-- C1: with both identifiers present, a 200 response and a decodable
body, `verify` returns the original inbound event iff the fetched
notification's `eventId`, `id` and `status` match the expected values,
and any mismatch yields `verificationFailed`. -/
theorem verify_cross_check_iff (event : Event) (resp : HttpResponse) (nid : Nat) (sid : Uuid)
    (notif : Notification)
    (hn : event.notificationId = some nid) (hs : event.subscriptionId = some sid)
    (hst : resp.status = 200) (hd : decodeNotification resp.body = some notif) :
    (verify event resp = .ok event ↔
      (notif.eventId = event.id ∧ notif.id = nid ∧ notif.status = "processing")) ∧
    ((notif.eventId ≠ event.id ∨ notif.id ≠ nid ∨ notif.status ≠ "processing") →
      verify event resp = .error .verificationFailed) := by
  have hv : verify event resp =
      if notif.eventId ≠ event.id ∨ notif.id ≠ nid ∨ notif.status ≠ "processing" then
        (.error .verificationFailed : Except AdoError Event)
      else .ok event := by
    simp [verify, hn, hs, hst, hd]
  rw [hv]
  split_ifs with hc
  · refine ⟨⟨fun h => by simp at h, fun h => ?_⟩, fun _ => rfl⟩
    rcases hc with hc | hc | hc
    · exact absurd h.1 hc
    · exact absurd h.2.1 hc
    · exact absurd h.2.2 hc
  · push_neg at hc
    exact ⟨⟨fun _ => hc, fun _ => rfl⟩, fun h => by
      rcases h with h | h | h
      · exact absurd hc.1 h
      · exact absurd hc.2.1 h
      · exact absurd hc.2.2 h⟩

/-- Witness for C1 at a concrete matching input. -/
theorem verify_cross_check_iff_witness : verify sampleEvent sampleResp = .ok sampleEvent :=
  (verify_cross_check_iff sampleEvent sampleResp 41 uuidS sampleNotif rfl rfl rfl rfl).1.mpr
    ⟨rfl, rfl, rfl⟩

/-- C2: if either identifier is absent, `verify` fails with a
missing-identifiers error, with an outcome independent of any response
(no lookup is consulted). -/
theorem verify_missing_identifiers (event : Event)
    (h : event.subscriptionId = none ∨ event.notificationId = none)
    (resp resp' : HttpResponse) :
    isMissingIdentifiers (verify event resp) = true ∧
      verify event resp = verify event resp' := by
  cases hn : event.notificationId with
  | none => exact ⟨by simp [verify, hn, isMissingIdentifiers], by simp [verify, hn]⟩
  | some nid =>
    cases hs : event.subscriptionId with
    | none => exact ⟨by simp [verify, hn, hs, isMissingIdentifiers], by simp [verify, hn, hs]⟩
    | some sid =>
      rcases h with h | h
      · rw [hs] at h; exact absurd h (by simp)
      · rw [hn] at h; exact absurd h (by simp)

/-- Witness for C2 at a concrete identifier-free event. -/
theorem verify_missing_identifiers_witness :
    isMissingIdentifiers (verify sampleEventNoIds sampleResp) = true ∧
      verify sampleEventNoIds sampleResp = verify sampleEventNoIds sampleRespVariant :=
  verify_missing_identifiers sampleEventNoIds (Or.inl rfl) sampleResp sampleRespVariant

/-- C10: when both lookups return 200 with decodable bodies agreeing on
`eventId`, `id` and `status`, `verify` gives the same outcome — its
result depends on no other part of the fetched notification. -/
theorem verify_depends_only_on_checked_fields (event : Event) (r1 r2 : HttpResponse)
    (n1 n2 : Notification) (h1 : r1.status = 200) (h2 : r2.status = 200)
    (d1 : decodeNotification r1.body = some n1) (d2 : decodeNotification r2.body = some n2)
    (he : n1.eventId = n2.eventId) (hi : n1.id = n2.id) (hs : n1.status = n2.status) :
    verify event r1 = verify event r2 := by
  unfold verify
  cases event.notificationId with
  | none => rfl
  | some nid =>
    cases event.subscriptionId with
    | none => rfl
    | some sid => simp [h1, h2, d1, d2, he, hi, hs]

/-- Witness for C10 on two responses differing outside the checked fields. -/
theorem verify_depends_only_on_checked_fields_witness :
    verify sampleEvent sampleResp = verify sampleEvent sampleRespVariant :=
  verify_depends_only_on_checked_fields sampleEvent sampleResp sampleRespVariant
    sampleNotif sampleNotifVariant rfl rfl rfl rfl rfl rfl rfl

/-- C3: the entry point verifies exactly when the event carries no
resource payload or the secure-fetch flag is set, surfacing a verifier
error as its own; otherwise the inbound event is dispatched unverified,
independently of any lookup response. -/
theorem build_verification_gating (flag : Bool) (tok : String) (event : Event) :
    (∀ resp, (event.resource = none ∨ flag = true) →
      buildWith flag (some tok) resp event =
        match verify event resp with
        | .error e => .error e
        | .ok ev => dispatch ev) ∧
    (event.resource ≠ none → flag = false →
      ∀ resp, buildWith flag (some tok) resp event = dispatch event) := by
  constructor
  · intro resp h
    have hc : (event.resource.isNone || flag) = true := by
      rcases h with h | h
      · simp [h]
      · simp [h]
    simp [buildWith, hc]
  · intro hr hf resp
    have hc : (event.resource.isNone || flag) = false := by
      rcases he : event.resource with _ | r
      · exact absurd he hr
      · simp [he, hf]
    simp [buildWith, hc]

/-- Witness for C3: with the flag set, the entry point's outcome is the
verifier's outcome dispatched. -/
theorem build_verification_gating_witness :
    buildWith true (some "token") sampleResp sampleEvent =
      match verify sampleEvent sampleResp with
      | .error e => .error e
      | .ok ev => dispatch ev :=
  (build_verification_gating true "token" sampleEvent).1 sampleResp (Or.inr rfl)

/-- C4: dispatch of an event whose type tag is not exactly
`"build.complete"` is a successful no-op, whatever the resource payload. -/
theorem dispatch_unknown_event_type_noop (event : Event)
    (h : event.eventType ≠ "build.complete") :
    dispatch event = .ok () ∧ ∀ r, dispatch { event with resource := r } = .ok () := by
  constructor
  · unfold dispatch
    split
    · next heq => exact absurd heq h
    · rfl
  · intro r
    unfold dispatch
    split
    · next heq => exact absurd heq h
    · rfl

/-- Witness for C4 at a concrete unrecognized event type. -/
theorem dispatch_unknown_event_type_noop_witness :
    dispatch sampleEventOther = .ok () ∧
      dispatch { sampleEventOther with resource := some goodBuildResource } = .ok () :=
  ⟨(dispatch_unknown_event_type_noop sampleEventOther (by decide)).1,
   (dispatch_unknown_event_type_noop sampleEventOther (by decide)).2 (some goodBuildResource)⟩

/-- C5: the build-completion handler fails with `missingResource` on an
absent resource, fails with `resourcePayloadMismatch` on a resource that
does not decode as `BuildComplete`, and succeeds on one that does. -/
theorem build_complete_resource_handling (event : Event) :
    (event.resource = none → build_complete event = .error .missingResource) ∧
    (∀ r, event.resource = some r → (decodeBuildComplete r).isSome = false →
      build_complete event = .error .resourcePayloadMismatch) ∧
    (∀ r, event.resource = some r → (decodeBuildComplete r).isSome = true →
      build_complete event = .ok ()) := by
  refine ⟨fun h => by simp [build_complete, h], fun r hr hd => ?_, fun r hr hd => ?_⟩
  · cases hdec : decodeBuildComplete r with
    | none => simp [build_complete, hr, hdec]
    | some b => rw [hdec] at hd; simp at hd
  · cases hdec : decodeBuildComplete r with
    | none => rw [hdec] at hd; simp at hd
    | some b => simp [build_complete, hr, hdec]

/-- Witness for C5: all three outcomes at concrete inputs, including a
resource missing only the required `id` field. -/
theorem build_complete_resource_handling_witness :
    build_complete sampleEvent = .error .missingResource ∧
    build_complete sampleEventBadRes = .error .resourcePayloadMismatch ∧
    build_complete sampleEventGoodRes = .ok () :=
  ⟨(build_complete_resource_handling sampleEvent).1 rfl,
   (build_complete_resource_handling sampleEventBadRes).2.1 badBuildResource rfl rfl,
   (build_complete_resource_handling sampleEventGoodRes).2.2 goodBuildResource rfl rfl⟩

/-- Appending an entry under a different key does not change a lookup. -/
theorem getField_append_ne (o : JObj) (name k : String) (v : Json) (h : k ≠ name) :
    getField (o ++ [(name, v)]) k = getField o k := by
  induction o with
  | nil => simp [getField, Ne.symm h]
  | cons p rest ih =>
    obtain ⟨k', v'⟩ := p
    by_cases hk : k' = k <;> simp [getField, hk, ih]

/-- Appending a field with an unrecognized name leaves `Event`
deserialization unchanged. -/
theorem decodeEvent_append_unknown (o : JObj) (name : String) (v : Json)
    (h : name ∉ eventFieldNames) :
    decodeEvent (.obj (o ++ [(name, v)])) = decodeEvent (.obj o) := by
  simp only [eventFieldNames, List.mem_cons, List.not_mem_nil, or_false, not_or] at h
  obtain ⟨h1, h2, h3, h4, h5, h6, h7, h8, h9, h10, h11⟩ := h
  simp only [decodeEvent, reqField, optField]
  rw [getField_append_ne o name "id" v (Ne.symm h1),
      getField_append_ne o name "subscriptionId" v (Ne.symm h2),
      getField_append_ne o name "notificationId" v (Ne.symm h3),
      getField_append_ne o name "eventType" v (Ne.symm h4),
      getField_append_ne o name "publisherId" v (Ne.symm h5),
      getField_append_ne o name "message" v (Ne.symm h6),
      getField_append_ne o name "detailedMessage" v (Ne.symm h7),
      getField_append_ne o name "resource" v (Ne.symm h8),
      getField_append_ne o name "resourceVersion" v (Ne.symm h9),
      getField_append_ne o name "resourceContainers" v (Ne.symm h10),
      getField_append_ne o name "createdDate" v (Ne.symm h11)]

/-- C6 counterexample: the event id is a valid UUID, yet a JSON object
carrying only `id` and `eventType` does not decode as an `Event` (the
code also requires `publisherId`, `resourceContainers`, `createdDate`). -/
theorem decodeEvent_minimal_id_eventType_fails :
    (parseUuid "d6ac459c-18b3-44ff-95b5-b5f03db672ea").isSome = true ∧
    (decodeEvent (.obj [("id", .str "d6ac459c-18b3-44ff-95b5-b5f03db672ea"),
                        ("eventType", .str "build.complete")])).isSome = false :=
  ⟨rfl, rfl⟩

/-- C6 amended: `Event` decoding requires exactly `id`, `eventType`,
`publisherId`, `resourceContainers` and `createdDate`: a document with
just these five decodes (all `Option` fields absent), dropping any one
of the five fails, and unrecognized fields are accepted and ignored. -/
theorem decodeEvent_required_fields :
    decodeEvent eventMinimalJson = some eventMinimal ∧
    (decodeEvent (.obj (eventMinimalFields.eraseIdx 0))).isSome = false ∧
    (decodeEvent (.obj (eventMinimalFields.eraseIdx 1))).isSome = false ∧
    (decodeEvent (.obj (eventMinimalFields.eraseIdx 2))).isSome = false ∧
    (decodeEvent (.obj (eventMinimalFields.eraseIdx 3))).isSome = false ∧
    (decodeEvent (.obj (eventMinimalFields.eraseIdx 4))).isSome = false ∧
    (∀ (o : JObj) (name : String) (v : Json), name ∉ eventFieldNames →
      decodeEvent (.obj (o ++ [(name, v)])) = decodeEvent (.obj o)) :=
  ⟨rfl, rfl, rfl, rfl, rfl, rfl, decodeEvent_append_unknown⟩

/-- Witness for C6 amended: an unrecognized field appended to the minimal
document is ignored. -/
theorem decodeEvent_required_fields_witness :
    decodeEvent (.obj (eventMinimalFields ++ [("unknownField", .num 7)])) =
      decodeEvent (.obj eventMinimalFields) :=
  decodeEvent_required_fields.2.2.2.2.2.2 eventMinimalFields "unknownField" (.num 7)
    (by decide)

/-- C7 counterexample: decoding accepts a notification whose top-level
`eventId` differs from the nested event's `id` — the invariant is not
enforced on decoded or accepted notifications. -/
theorem notification_decode_accepts_eventId_mismatch :
    ((decodeNotification notifMismatchJson).map fun n => n.details.event.isSome) = some true ∧
    ((decodeNotification notifMismatchJson).map fun n =>
        decide (n.details.event.map (fun ev => ev.id) = some n.eventId)) = some false :=
  ⟨rfl, rfl⟩

/-- C7 amended: the eventId cross-check the system actually enforces sits
in `verify`: whenever verification succeeds, the fetched notification's
`eventId` equals the inbound event's id, and the returned event is the
inbound one. -/
theorem verify_ok_eventId_invariant (event : Event) (resp : HttpResponse)
    (notif : Notification) (ev' : Event)
    (hd : decodeNotification resp.body = some notif)
    (hok : verify event resp = .ok ev') :
    notif.eventId = event.id ∧ ev' = event := by
  revert hok
  unfold verify
  cases hN : event.notificationId with
  | none => intro hok; simp at hok
  | some nid =>
    cases hS : event.subscriptionId with
    | none => intro hok; simp at hok
    | some sid =>
      rw [hd]
      split_ifs with hst
      · intro hok; simp at hok
      · intro hok
        by_cases h1 : notif.eventId = event.id
        · by_cases h2 : notif.id = nid
          · by_cases h3 : notif.status = "processing"
            · simp [h1, h2, h3] at hok
              exact ⟨h1, hok.symm⟩
            · simp [h1, h2, h3] at hok
          · simp [h1, h2] at hok
        · simp [h1] at hok

/-- Witness for C7 amended at a concrete verified exchange. -/
theorem verify_ok_eventId_invariant_witness :
    sampleNotif.eventId = sampleEvent.id ∧ sampleEvent = sampleEvent :=
  verify_ok_eventId_invariant sampleEvent sampleResp sampleNotif sampleEvent rfl rfl

/-- C9: both sample Notification payloads from the platform's webhook
test fixtures decode successfully; the first carries a nested event, the
second none (so `event`, `resource`, `message` being absent is accepted). -/
theorem notification_fixtures_decode :
    ((decodeNotification adoFixture1).map fun n => n.details.event.isSome) = some true ∧
    ((decodeNotification adoFixture2).map fun n => n.details.event.isSome) = some false :=
  ⟨rfl, rfl⟩

/-- Lowercasing either fixes its argument or returns a lowercase hex
letter. -/
theorem lowerHexChar_cases (c : Char) :
    lowerHexChar c = c ∨ lowerHexChar c = 'a' ∨ lowerHexChar c = 'b' ∨
      lowerHexChar c = 'c' ∨ lowerHexChar c = 'd' ∨ lowerHexChar c = 'e' ∨
      lowerHexChar c = 'f' := by
  unfold lowerHexChar
  split <;> simp

/-- Hex lowercasing is idempotent. -/
theorem lowerHexChar_idem (c : Char) : lowerHexChar (lowerHexChar c) = lowerHexChar c := by
  rcases lowerHexChar_cases c with h | h | h | h | h | h | h <;> rw [h] <;>
    first | exact h | rfl

/-- Hex lowercasing preserves hex-digit-hood. -/
theorem isHexDigit_lowerHexChar (c : Char) (h : isHexDigit c = true) :
    isHexDigit (lowerHexChar c) = true := by
  rcases lowerHexChar_cases c with hc | hc | hc | hc | hc | hc | hc <;> rw [hc] <;>
    first | exact h | rfl

/-- Hex lowercasing preserves `takeSeg` success. -/
theorem takeSeg_map_lower (n : Nat) (cs cs' : List Char) (h : takeSeg n cs = some cs') :
    takeSeg n (cs.map lowerHexChar) = some (cs'.map lowerHexChar) := by
  induction n generalizing cs with
  | zero =>
    simp [takeSeg] at h
    simp [takeSeg, h]
  | succ n ih =>
    cases cs with
    | nil => simp [takeSeg] at h
    | cons c rest =>
      simp only [takeSeg] at h
      by_cases hc : isHexDigit c = true
      · rw [if_pos hc] at h
        simp only [List.map_cons, takeSeg, isHexDigit_lowerHexChar c hc, if_pos]
        exact ih rest h
      · rw [if_neg hc] at h
        exact absurd h (by simp)

/-- Hex lowercasing fixes the hyphen and preserves `expects '-'`. -/
theorem expects_hyphen_map_lower (cs cs' : List Char) (h : expects '-' cs = some cs') :
    expects '-' (cs.map lowerHexChar) = some (cs'.map lowerHexChar) := by
  cases cs with
  | nil => simp [expects] at h
  | cons c rest =>
    simp only [expects] at h
    by_cases hc : c = '-'
    · subst hc
      rw [if_pos rfl] at h
      cases h
      rfl
    · rw [if_neg hc] at h
      exact absurd h (by simp)

/-- Hex lowercasing preserves the segment-shape check. -/
theorem checkSegs_map_lower (ns : List Nat) (cs : List Char) (h : checkSegs ns cs = true) :
    checkSegs ns (cs.map lowerHexChar) = true := by
  induction ns generalizing cs with
  | nil =>
    simp [checkSegs] at h
    simp [checkSegs, h]
  | cons n rest ih =>
    simp only [checkSegs] at h ⊢
    cases hts : takeSeg n cs with
    | none => simp only [hts] at h; exact absurd h (by simp)
    | some cs' =>
      simp only [hts] at h
      simp only [takeSeg_map_lower n cs cs' hts]
      cases rest with
      | nil =>
        simp at h
        simp [h]
      | cons m rest' =>
        cases hex : expects '-' cs' with
        | none => simp only [hex] at h; exact absurd h (by simp)
        | some cs'' =>
          simp only [hex] at h
          simp only [expects_hyphen_map_lower cs' cs'' hex]
          exact ih cs'' h

/-- Hex lowercasing of a string is idempotent. -/
theorem lowerUuid_idem (s : String) : lowerUuid (lowerUuid s) = lowerUuid s := by
  have hmap : (s.data.map lowerHexChar).map lowerHexChar = s.data.map lowerHexChar := by
    rw [List.map_map]
    have hfun : lowerHexChar ∘ lowerHexChar = lowerHexChar := funext lowerHexChar_idem
    rw [hfun]
  exact congrArg String.mk hmap

/-- Hex lowercasing preserves the UUID shape check. -/
theorem uuidCheck_lowerUuid (s : String) (h : uuidCheck s = true) :
    uuidCheck (lowerUuid s) = true := by
  show checkSegs [8, 4, 4, 4, 12] (s.data.map lowerHexChar) = true
  exact checkSegs_map_lower _ _ h

/-- A lowercased valid UUID string parses to itself. -/
theorem parseUuid_lowerUuid (s : String) (h : uuidCheck s = true) :
    parseUuid (lowerUuid s) = some ⟨lowerUuid s⟩ := by
  unfold parseUuid
  rw [uuidCheck_lowerUuid s h, if_pos rfl, lowerUuid_idem]

/-- Every UUID `parseUuid` produces is well formed. -/
theorem parseUuid_wf (s : String) (u : Uuid) (h : parseUuid s = some u) : WfUuid u := by
  unfold parseUuid at h
  split_ifs at h with hch
  cases h
  exact parseUuid_lowerUuid s hch

/-- Every datetime `parseDateTime` produces is well formed. -/
theorem parseDateTime_wf (s : String) (t : DateTimeUtc) (h : parseDateTime s = some t) :
    WfDT t := by
  unfold parseDateTime at h
  split_ifs at h with hch
  cases h
  unfold WfDT printDateTime parseDateTime
  rw [if_pos hch]

/-- Bind on `Option` succeeds exactly through an intermediate value. -/
theorem obind_eq_some {α β : Type _} {x : Option α} {f : α → Option β} {b : β} :
    (x >>= f) = some b ↔ ∃ a, x = some a ∧ f a = some b := by
  cases x <;> simp

/-- Bind of a known value reduces. -/
theorem some_bind {α β : Type _} (a : α) (f : α → Option β) : (some a >>= f) = f a := rfl

theorem OptWf_some {P : α → Prop} {o : Option α} {a : α} (h : OptWf P o) (ho : o = some a) :
    P a := by
  subst ho
  exact h

/-- Inversion for required fields. -/
theorem reqField_eq_some {o : JObj} {name : String} {d : Json → Option α} {a : α}
    (h : reqField o name d = some a) : ∃ j, getField o name = some j ∧ d j = some a := by
  unfold reqField at h
  cases hg : getField o name with
  | none => rw [hg] at h; exact absurd h (by simp)
  | some j => rw [hg] at h; exact ⟨j, rfl, h⟩

/-- Inversion for `optDecode` landing on a present value. -/
theorem optDecode_eq_some_some {d : Json → Option α} {j : Json} {a : α}
    (h : optDecode d j = some (some a)) : d j = some a := by
  cases j <;> simp [optDecode] at h <;> exact h

/-- Inversion for optional fields landing on a present value. -/
theorem optField_eq_some_some {o : JObj} {name : String} {d : Json → Option α} {r : Option α}
    (h : optField o name d = some r) : ∀ a, r = some a → ∃ j, d j = some a := by
  intro a ha
  subst ha
  unfold optField at h
  cases hg : getField o name with
  | none => rw [hg] at h; exact absurd h (by simp)
  | some j => rw [hg] at h; exact ⟨j, optDecode_eq_some_some h⟩

/-- Optional-field well-formedness transfer. -/
theorem optField_wf {o : JObj} {name : String} {d : Json → Option α} {r : Option α}
    {P : α → Prop} (h : optField o name d = some r)
    (hP : ∀ j a, d j = some a → P a) : OptWf P r := by
  cases r with
  | none => trivial
  | some a =>
    obtain ⟨j, hj⟩ := optField_eq_some_some h a rfl
    exact hP j a hj

/-- The raw-resource optional field never produces an explicit JSON null. -/
theorem optField_raw_ne_null {o : JObj} {name : String} {r : Option Json}
    (h : optField o name (fun j => some j) = some r) : r ≠ some Json.null := by
  unfold optField at h
  cases hg : getField o name with
  | none => rw [hg] at h; cases h; simp
  | some j =>
    rw [hg] at h
    cases j <;> simp [optDecode] at h <;> simp [← h]

/-- Round trip for an encoded optional value. -/
theorem optDecode_encodeOpt {d : Json → Option α} {f : α → Json} {o : Option α}
    (hf : ∀ a, o = some a → d (f a) = some a)
    (hnull : ∀ a, o = some a → f a ≠ .null) :
    optDecode d (encodeOpt f o) = some o := by
  cases o with
  | none => rfl
  | some a =>
    have hd : d (f a) = some a := hf a rfl
    have hn : f a ≠ .null := hnull a rfl
    cases hj : f a with
    | null => exact absurd hj hn
    | bool b => rw [hj] at hd; simp [encodeOpt, hj, optDecode, hd]
    | num n => rw [hj] at hd; simp [encodeOpt, hj, optDecode, hd]
    | str s => rw [hj] at hd; simp [encodeOpt, hj, optDecode, hd]
    | arr xs => rw [hj] at hd; simp [encodeOpt, hj, optDecode, hd]
    | obj fields => rw [hj] at hd; simp [encodeOpt, hj, optDecode, hd]

/-- Decoding a u64 bounds its result. -/
theorem decodeU64_lt {j : Json} {n : Nat} (h : decodeU64 j = some n) : n < 2 ^ 64 := by
  cases j <;> simp [decodeU64] at h
  rcases h with ⟨⟨h0, hlt⟩, hn⟩
  omega

/-- Encoding a u64 round-trips under the bound. -/
theorem decodeU64_num {n : Nat} (h : n < 2 ^ 64) : decodeU64 (.num n) = some n := by
  simp [decodeU64]
  omega

/-- Every UUID produced by `decodeUuid` is well formed. -/
theorem decodeUuid_wf {j : Json} {u : Uuid} (h : decodeUuid j = some u) : WfUuid u := by
  cases j <;> simp [decodeUuid] at h
  exact parseUuid_wf _ _ h

/-- Every datetime produced by `decodeDateTime` is well formed. -/
theorem decodeDateTime_wf {j : Json} {t : DateTimeUtc} (h : decodeDateTime j = some t) :
    WfDT t := by
  cases j <;> simp [decodeDateTime] at h
  exact parseDateTime_wf _ _ h

/-- Elements produced by `mapOpt` come from elements of the input. -/
theorem mapOpt_mem {f : α → Option β} {l : List α} {l' : List β}
    (h : mapOpt f l = some l') : ∀ b ∈ l', ∃ a ∈ l, f a = some b := by
  induction l generalizing l' with
  | nil =>
    simp [mapOpt] at h
    subst h
    simp
  | cons x xs ih =>
    simp only [mapOpt, obind_eq_some] at h
    obtain ⟨b, hb, bs, hbs, hpure⟩ := h
    simp at hpure
    subst hpure
    intro c hc
    rcases List.mem_cons.mp hc with hceq | hcmem
    · exact ⟨x, List.mem_cons_self x xs, hceq ▸ hb⟩
    · obtain ⟨a, ha, hfa⟩ := ih hbs c hcmem
      exact ⟨a, List.mem_cons_of_mem x ha, hfa⟩

/-- Every container `decodeContainer` produces has a well-formed id. -/
theorem decodeContainer_wf {j : Json} {c : Container} (h : decodeContainer j = some c) :
    WfUuid c.id := by
  cases j with
  | obj o =>
    simp only [decodeContainer, obind_eq_some] at h
    obtain ⟨u, hu, bu, hbu, hpure⟩ := h
    simp at hpure
    obtain ⟨j2, hg, hdu⟩ := reqField_eq_some hu
    have hcid : c.id = u := by rw [← hpure]
    rw [hcid]
    exact decodeUuid_wf hdu
  | null => simp [decodeContainer] at h
  | bool b => simp [decodeContainer] at h
  | num n => simp [decodeContainer] at h
  | str s => simp [decodeContainer] at h
  | arr xs => simp [decodeContainer] at h

/-- Containers produced by `decodeStrMap decodeContainer` have
well-formed ids. -/
theorem decodeStrMap_container_wf {j : Json} {l : List (String × Container)}
    (h : decodeStrMap decodeContainer j = some l) : ∀ p ∈ l, WfUuid p.2.id := by
  cases j <;> simp [decodeStrMap] at h
  intro p hp
  obtain ⟨q, hq, hfq⟩ := mapOpt_mem h p hp
  simp only [Option.map_eq_some'] at hfq
  obtain ⟨c, hc, hpc⟩ := hfq
  subst hpc
  exact decodeContainer_wf hc

/-- Every event `decodeEvent` produces is well formed. -/
theorem decodeEvent_wf {j : Json} {e : Event} (h : decodeEvent j = some e) : WfEvent e := by
  cases j with
  | obj o =>
    simp only [decodeEvent, obind_eq_some] at h
    obtain ⟨id', hid, sub, hsub, nid, hnid, ty, hty, pub, hpub, msg, hmsg, dmsg, hdmsg,
      res, hres, rv, hrv, rc, hrc, cd, hcd, hpure⟩ := h
    simp only [Option.pure_def, Option.some.injEq] at hpure
    subst hpure
    refine ⟨?_, ?_, ?_, ?_, ?_, ?_⟩
    · obtain ⟨j2, _, hd⟩ := reqField_eq_some hid
      exact decodeUuid_wf hd
    · exact optField_wf hsub fun j a hd => decodeUuid_wf hd
    · exact optField_wf hnid fun j a hd => decodeU64_lt hd
    · exact optField_raw_ne_null hres
    · obtain ⟨j2, _, hd⟩ := reqField_eq_some hrc
      exact decodeStrMap_container_wf hd
    · obtain ⟨j2, _, hd⟩ := reqField_eq_some hcd
      exact decodeDateTime_wf hd
  | null => simp [decodeEvent] at h
  | bool b => simp [decodeEvent] at h
  | num n => simp [decodeEvent] at h
  | str s => simp [decodeEvent] at h
  | arr xs => simp [decodeEvent] at h

/-- Encoding then decoding a `Message` is the identity. -/
theorem decodeMessage_encodeMessage (m : Message) :
    decodeMessage (encodeMessage m) = some m := rfl

/-- Encoding then decoding a well-formed `Container` is the identity. -/
theorem decodeContainer_encodeContainer (c : Container) (h : WfUuid c.id) :
    decodeContainer (encodeContainer c) = some c := by
  have h' : parseUuid (printUuid c.id) = some c.id := h
  have hb : optDecode decodeString (encodeOpt Json.str c.baseUrl) = some c.baseUrl :=
    optDecode_encodeOpt (fun a _ => rfl) (fun a _ => by simp)
  simp [decodeContainer, encodeContainer, reqField, optField, getField, decodeUuid, h', hb]

/-- Encoding then decoding a well-formed container map is the identity. -/
theorem mapOpt_encode_containers (l : List (String × Container))
    (h : ∀ p ∈ l, WfUuid p.2.id) :
    mapOpt (fun q => (decodeContainer q.2).map fun a => (q.1, a))
      (l.map fun p => (p.1, encodeContainer p.2)) = some l := by
  induction l with
  | nil => rfl
  | cons p rest ih =>
    have hd := decodeContainer_encodeContainer p.2 (h p (List.mem_cons_self p rest))
    have ih' := ih fun q hq => h q (List.mem_cons_of_mem p hq)
    simp [mapOpt, hd, ih']

/-- Encoding then decoding a well-formed event is the identity. -/
theorem encodeEvent_decode {e : Event} (h : WfEvent e) :
    decodeEvent (encodeEvent e) = some e := by
  obtain ⟨hid, hsub, hnid, hres, hrc, hcd⟩ := h
  have hid' : parseUuid (printUuid e.id) = some e.id := hid
  have hcd' : parseDateTime (printDateTime e.createdDate) = some e.createdDate := hcd
  have hsub' : optDecode decodeUuid
      (encodeOpt (fun u => Json.str (printUuid u)) e.subscriptionId) =
      some e.subscriptionId :=
    optDecode_encodeOpt
      (fun a ha => by
        have hw : WfUuid a := @OptWf_some Uuid WfUuid e.subscriptionId a hsub ha
        exact hw)
      (fun a _ => by simp)
  have hnid' : optDecode decodeU64
      (encodeOpt (fun n : Nat => Json.num (n : Int)) e.notificationId) =
      some e.notificationId :=
    optDecode_encodeOpt
      (fun a ha => by
        have hw : a < 2 ^ 64 :=
          @OptWf_some Nat (fun n => n < 2 ^ 64) e.notificationId a hnid ha
        exact decodeU64_num hw)
      (fun a _ => by simp)
  have hmsg' : ∀ o : Option Message,
      optDecode decodeMessage (encodeOpt encodeMessage o) = some o := fun o =>
    optDecode_encodeOpt (fun a _ => decodeMessage_encodeMessage a)
      (fun a _ => by simp [encodeMessage])
  have hres' : optDecode some (encodeOpt (fun j => j) e.resource) = some e.resource :=
    optDecode_encodeOpt (fun a _ => rfl) fun a ha hn => hres (by rw [ha, hn])
  have hrv' : optDecode decodeString (encodeOpt Json.str e.resourceVersion) =
      some e.resourceVersion :=
    optDecode_encodeOpt (fun a _ => rfl) (fun a _ => by simp)
  have hrc' := mapOpt_encode_containers e.resourceContainers hrc
  simp [decodeEvent, encodeEvent, encodeEventFields, reqField, optField, getField,
        decodeUuid, decodeDateTime, decodeString, decodeStrMap,
        hid', hcd', hsub', hnid', hmsg', hres', hrv', hrc']

/-- C8: any `Event` obtained by decoding wire JSON survives an
encode-decode round trip unchanged, field for field. -/
theorem decodeEvent_roundtrip (j : Json) (e : Event) (h : decodeEvent j = some e) :
    decodeEvent (encodeEvent e) = some e :=
  encodeEvent_decode (decodeEvent_wf h)

/-- Witness for C8 at a concrete fully-populated decoded event. -/
theorem decodeEvent_roundtrip_witness :
    decodeEvent (encodeEvent sampleEventFull) = some sampleEventFull :=
  decodeEvent_roundtrip sampleEventFullJson sampleEventFull rfl

end AdoHooks
